import Mathlib

/-!
# Verification of the GroupVAN-SDK Python client against its specification

Shallow embedding of `src/clients/python/client.py` (class `GroupVANClient`
and its four public operations), together with a model of the two delegated
libraries the client calls into:

* the JWT encode/decode library (PyJWT): `jwtEncode` / `jwtDecode` below
  model its documented behaviour — `jwt.encode` builds the JOSE header from
  the default `{typ: "JWT", alg: <algorithm>}` updated (dict-update
  semantics) with the caller-supplied extra headers, serializes the given
  claims unchanged, and signs; it signals an error when the supplied key
  material does not parse as an RSA private key;
* the RSA signature primitive (RSASSA-PKCS1-v1_5 with SHA-256, per spec §6):
  `rsassaSign` / `rsassaVerify` model textbook RSA over the encoded digest
  of the signing input.  The hash-and-pad encoding of
  `base64url(header) ++ "." ++ base64url(payload)` is not reimplemented;
  it is abstracted as an arbitrary function `hashFn` from the (header,
  payload) pair to the numeric signing representative, and the compact
  textual serialization of a token is abstracted as `serialize : Jwt → String`.

The clock read `math.floor(time.time())` (client.py:47) is passed in as the
explicit argument `current_time`; Python integers are modelled as `ℤ`.
The HTTP transport `requests.request` (client.py:100) is passed in as an
explicit function `transport : HttpRequest → HttpResponse`, and each
operation additionally returns the list of requests it issued through the
transport, so that "exactly one request is issued" is a provable statement.
-/

/-- JSON values, as far as the client manipulates them (claim/header values
are strings and integers; response bodies may be arbitrary objects/arrays). -/
inductive Json where
  | str (s : String)
  | int (n : ℤ)
  | obj (fields : List (String × Json))
  | arr (elems : List Json)
  | null

/-- An RSA private key: modulus and private exponent.  Stands for the PEM
material parsed by the delegated library. -/
structure RsaPrivateKey where
  n : ℕ
  d : ℕ

/-- An RSA public key: modulus and public exponent. -/
structure RsaPublicKey where
  n : ℕ
  e : ℕ

/-- Modelled from the spec: the key material handed to the client is either a
PEM blob that parses as an RSA private key, or malformed text (spec §4.1:
"signals an error if the key material is malformed or incompatible with the
declared algorithm"). -/
inductive KeyMaterial where
  | rsaPem (key : RsaPrivateKey)
  | malformed (text : String)

/-- Modelled from the spec: PEM parsing inside the delegated signing library.
Succeeds exactly on well-formed RSA private keys. -/
def parsePrivateKey : KeyMaterial → Option RsaPrivateKey
  | KeyMaterial.rsaPem key => some key
  | KeyMaterial.malformed _ => none

/-- Textbook RSASSA signing of an already hashed-and-padded representative
`h`: `h ^ d mod n` (spec §6: RSASSA-PKCS1-v1_5 with SHA-256 over the
base64url-encoded signing input; the digest/padding step is the caller's
`hashFn`). -/
def rsassaSign (n d h : ℕ) : ℕ := h ^ d % n

/-- Textbook RSASSA verification: the signature raised to the public exponent
must equal the expected representative modulo `n`. -/
def rsassaVerify (n e sig h : ℕ) : Bool := sig ^ e % n == h % n

/-- Python `dict.update` on JSON objects kept as insertion-ordered
association lists (keys of `upd` that exist in `base` overwrite in place,
fresh keys are appended in order).  Both dictionaries in this development
have pairwise-distinct keys. -/
def dictUpdate (base upd : List (String × Json)) : List (String × Json) :=
  base.map (fun kv =>
    match upd.lookup kv.1 with
    | some v => (kv.1, v)
    | none => kv)
  ++ upd.filter (fun kv => (base.lookup kv.1).isNone)

/-- Python truthiness of a JSON value (`not header["typ"]` in the delegated
encoder): empty string, zero, empty containers and null are falsy. -/
def jsonFalsy : Json → Bool
  | Json.str s => s == ""
  | Json.int n => n == 0
  | Json.obj fields => fields.isEmpty
  | Json.arr elems => elems.isEmpty
  | Json.null => true

/-- A signed JWT before compact serialization: protected header, payload
claims, numeric RSASSA signature. -/
structure Jwt where
  header : List (String × Json)
  payload : List (String × Json)
  signature : ℕ

/-- The abstracted hash-and-pad step of the signing input: from (header,
payload) to the numeric representative that is RSA-signed.  Stands for
SHA-256 + PKCS1-v1_5 padding of `base64url(header) ++ "." ++
base64url(payload)`, which is not reimplemented (spec §1, §6). -/
abbrev HashFn := List (String × Json) → List (String × Json) → ℕ

/-- Model of the delegated JWT library's `jwt.encode(claims, key, algorithm,
headers)` (PyJWT): parse the key material (error on failure); build the
protected header as the default `{typ: "JWT", alg: <algorithm>}` updated
with the caller-supplied extra headers, dropping `typ` if its value ended up
falsy; keep the claims unchanged as the payload; sign with the private key. -/
def jwtEncode (hashFn : HashFn) (claims : List (String × Json)) (key : KeyMaterial)
    (alg : String) (headers : List (String × Json)) : Except String Jwt :=
  match parsePrivateKey key with
  | none => Except.error "Could not parse the provided key material as an RSA private key"
  | some k =>
    let merged := dictUpdate [("typ", Json.str "JWT"), ("alg", Json.str alg)] headers
    let header :=
      match merged.lookup "typ" with
      | some v => if jsonFalsy v then merged.filter (fun kv => kv.1 ≠ "typ") else merged
      | none => merged
    Except.ok ⟨header, claims, rsassaSign k.n k.d (hashFn header claims)⟩

/-- Model of the delegated JWT library's verify-and-decode: recompute the
signing representative, check the RSASSA signature under the given public
key, and yield the signed claims on success. -/
def jwtDecode (hashFn : HashFn) (pub : RsaPublicKey) (tok : Jwt) :
    Option (List (String × Json)) :=
  if rsassaVerify pub.n pub.e tok.signature (hashFn tok.header tok.payload) = true then
    some tok.payload
  else none

/-- The client state: the three constructor-supplied credentials plus the
fixed base URL (client.py:23-35). -/
structure GroupVANClient where
  developer_id : String
  key_id : String
  private_key_pem : KeyMaterial
  base_url : String

/-- `GroupVANClient.__init__` (client.py:23-35): stores the three credentials
and sets the fixed base URL. -/
def GroupVANClient.init (developer_id key_id : String) (private_key_pem : KeyMaterial) :
    GroupVANClient :=
  ⟨developer_id, key_id, private_key_pem, "https://api.groupvan.com/v3"⟩

/-- `GroupVANClient.generate_jwt` (client.py:37-66): read the clock once
(`current_time`, the floored unix-seconds value, passed explicitly), build
the five claims, and call the delegated encoder with algorithm RS256 and the
extra headers `{gv-ver: "GV-JWT-V1", kid: <key id>}`.  The Python default
for `expires_in` is 300; call sites pass it explicitly here. -/
def GroupVANClient.generate_jwt (c : GroupVANClient) (hashFn : HashFn)
    (current_time expires_in : ℤ) : Except String Jwt :=
  let claims := [("aud", Json.str "groupvan"),
                 ("iss", Json.str c.developer_id),
                 ("kid", Json.str c.key_id),
                 ("exp", Json.int (current_time + expires_in)),
                 ("iat", Json.int current_time)]
  jwtEncode hashFn claims c.private_key_pem "RS256"
    [("gv-ver", Json.str "GV-JWT-V1"), ("kid", Json.str c.key_id)]

/-- An HTTP request as handed to the delegated transport
(`requests.request`, client.py:100-106). -/
structure HttpRequest where
  method : String
  url : String
  headers : List (String × String)
  data : Option Json
  params : Option (List (String × Json))

/-- An HTTP response from the delegated transport: status code, raw body
text (`response.text`) and the body parsed as JSON (`response.json()`),
carried as two views of the same body. -/
structure HttpResponse where
  status_code : ℤ
  text : String
  json : Json

/-- `GroupVANClient.make_authenticated_request` (client.py:68-108): mint a
fresh token with the default lifetime 300, build the Authorization and
Content-Type headers, concatenate the base URL with the endpoint, and issue
exactly one request through the transport, returning its response
unmodified.  The first component is the list of requests actually issued
through the transport during the call (empty when token generation fails
before any request is sent). -/
def GroupVANClient.make_authenticated_request (c : GroupVANClient) (hashFn : HashFn)
    (serialize : Jwt → String) (current_time : ℤ) (transport : HttpRequest → HttpResponse)
    (method endpoint : String) (data : Option Json) (params : Option (List (String × Json))) :
    List HttpRequest × Except String HttpResponse :=
  match c.generate_jwt hashFn current_time 300 with
  | Except.error e => ([], Except.error e)
  | Except.ok token =>
    let headers := [("Authorization", "Bearer " ++ serialize token),
                    ("Content-Type", "application/json")]
    let url := c.base_url ++ endpoint
    let req : HttpRequest := ⟨method, url, headers, data, params⟩
    ([req], Except.ok (transport req))

/-- `GroupVANClient.get_catalog` (client.py:110-128): GET
`/catalogs/{catalog_id}`; on status 200 return the body parsed as JSON,
otherwise raise `Failed to get catalog: <status> - <text>`. -/
def GroupVANClient.get_catalog (c : GroupVANClient) (hashFn : HashFn)
    (serialize : Jwt → String) (current_time : ℤ) (transport : HttpRequest → HttpResponse)
    (catalog_id : String) : List HttpRequest × Except String Json :=
  let sent := c.make_authenticated_request hashFn serialize current_time transport
    "GET" ("/catalogs/" ++ catalog_id) none none
  match sent with
  | (log, Except.error e) => (log, Except.error e)
  | (log, Except.ok response) =>
    if response.status_code = 200 then (log, Except.ok response.json)
    else (log, Except.error ("Failed to get catalog: " ++ toString response.status_code
      ++ " - " ++ response.text))

/-- `GroupVANClient.list_catalogs` (client.py:130-150): GET `/catalogs` with
query parameters `{limit, offset}` (Python defaults 10 and 0; call sites
pass them explicitly here); on status 200 return the body parsed as JSON,
otherwise raise `Failed to list catalogs: <status> - <text>`. -/
def GroupVANClient.list_catalogs (c : GroupVANClient) (hashFn : HashFn)
    (serialize : Jwt → String) (current_time : ℤ) (transport : HttpRequest → HttpResponse)
    (limit offset : ℤ) : List HttpRequest × Except String Json :=
  let sent := c.make_authenticated_request hashFn serialize current_time transport
    "GET" "/catalogs" none (some [("limit", Json.int limit), ("offset", Json.int offset)])
  match sent with
  | (log, Except.error e) => (log, Except.error e)
  | (log, Except.ok response) =>
    if response.status_code = 200 then (log, Except.ok response.json)
    else (log, Except.error ("Failed to list catalogs: " ++ toString response.status_code
      ++ " - " ++ response.text))

/-- The header a generated token carries, as produced by the delegated
encoder: the default typ/alg fields followed by the two caller-supplied
extras. -/
def jwtHeaderFor (kid : String) : List (String × Json) :=
  [("typ", Json.str "JWT"), ("alg", Json.str "RS256"),
   ("gv-ver", Json.str "GV-JWT-V1"), ("kid", Json.str kid)]

/-- The payload a generated token carries: the five claims of
client.py:50-56. -/
def jwtPayloadFor (dev kid : String) (current_time expires_in : ℤ) :
    List (String × Json) :=
  [("aud", Json.str "groupvan"), ("iss", Json.str dev), ("kid", Json.str kid),
   ("exp", Json.int (current_time + expires_in)), ("iat", Json.int current_time)]

/-- Substring containment on strings, used to state what an error message
carries. -/
def strContainsSub (s sub : String) : Prop := ∃ l r, s = l ++ sub ++ r

/-- State-passing form of `generate_jwt`: a Python method receives `self`
and could mutate it, so the embedding returns the client state after the
call alongside the result; the body (client.py:37-66) contains no assignment
to `self`, so the state after the call is the state at entry, on the success
and the error path alike. -/
def GroupVANClient.generate_jwt_run (c : GroupVANClient) (hashFn : HashFn)
    (current_time expires_in : ℤ) : GroupVANClient × Except String Jwt :=
  (c, c.generate_jwt hashFn current_time expires_in)

/-- State-passing form of `make_authenticated_request` (client.py:68-108):
no assignment to `self` occurs in the body. -/
def GroupVANClient.make_authenticated_request_run (c : GroupVANClient) (hashFn : HashFn)
    (serialize : Jwt → String) (current_time : ℤ) (transport : HttpRequest → HttpResponse)
    (method endpoint : String) (data : Option Json) (params : Option (List (String × Json))) :
    GroupVANClient × (List HttpRequest × Except String HttpResponse) :=
  (c, c.make_authenticated_request hashFn serialize current_time transport method endpoint
    data params)

/-- State-passing form of `get_catalog` (client.py:110-128): no assignment
to `self` occurs in the body. -/
def GroupVANClient.get_catalog_run (c : GroupVANClient) (hashFn : HashFn)
    (serialize : Jwt → String) (current_time : ℤ) (transport : HttpRequest → HttpResponse)
    (catalog_id : String) : GroupVANClient × (List HttpRequest × Except String Json) :=
  (c, c.get_catalog hashFn serialize current_time transport catalog_id)

/-- State-passing form of `list_catalogs` (client.py:130-150): no assignment
to `self` occurs in the body. -/
def GroupVANClient.list_catalogs_run (c : GroupVANClient) (hashFn : HashFn)
    (serialize : Jwt → String) (current_time : ℤ) (transport : HttpRequest → HttpResponse)
    (limit offset : ℤ) : GroupVANClient × (List HttpRequest × Except String Json) :=
  (c, c.list_catalogs hashFn serialize current_time transport limit offset)

/-- C1: for every call to `generate_jwt` with a positive lifetime
`expires_in`, the payload of the produced token has `exp > iat` and
`exp - iat = expires_in`, with `iat` the floored unix-seconds clock value
read once at call time (passed as `current_time`). -/
theorem generate_jwt_exp_iat (dev kid : String) (key : RsaPrivateKey) (hashFn : HashFn)
    (current_time expires_in : ℤ) (hpos : 0 < expires_in) :
    ∃ tok expVal iatVal,
      (GroupVANClient.init dev kid (KeyMaterial.rsaPem key)).generate_jwt hashFn
          current_time expires_in = Except.ok tok ∧
      tok.payload.lookup "exp" = some (Json.int expVal) ∧
      tok.payload.lookup "iat" = some (Json.int iatVal) ∧
      iatVal < expVal ∧ expVal - iatVal = expires_in := by
  refine ⟨_, current_time + expires_in, current_time, rfl, rfl, rfl, by omega, by ring⟩

/-- Witness for C1: a concrete client and clock with the default lifetime
300. -/
theorem generate_jwt_exp_iat_witness :
    (0 : ℤ) < 300 ∧
    ∃ tok expVal iatVal,
      (GroupVANClient.init "dev_abc123" "key_xyz789"
          (KeyMaterial.rsaPem ⟨33, 7⟩)).generate_jwt (fun _ _ => 2)
          1700000000 300 = Except.ok tok ∧
      tok.payload.lookup "exp" = some (Json.int expVal) ∧
      tok.payload.lookup "iat" = some (Json.int iatVal) ∧
      iatVal < expVal ∧ expVal - iatVal = 300 :=
  ⟨by decide, generate_jwt_exp_iat "dev_abc123" "key_xyz789" ⟨33, 7⟩ (fun _ _ => 2)
    1700000000 300 (by decide)⟩

/-- C2 counterexample: at a concrete developer id, key id, key and clock, the
header of the produced token is not the three-field object
`{alg, gv-ver, kid}`: it carries a fourth field `typ = "JWT"` (added by the
delegated encoder), so its field list has length 4. -/
theorem generate_jwt_header_has_typ :
    ∃ tok,
      (GroupVANClient.init "dev_abc123" "key_xyz789"
          (KeyMaterial.rsaPem ⟨33, 7⟩)).generate_jwt (fun _ _ => 2) 1000 300
        = Except.ok tok ∧
      tok.header.lookup "typ" = some (Json.str "JWT") ∧
      tok.header.length = 4 :=
  ⟨_, rfl, rfl, rfl⟩

/-- C2 (amended): for every valid (developer id, key id, private key), the
header of a token produced by `generate_jwt` consists of exactly the four
fields `typ = "JWT"` (the delegated encoder's default), `alg = "RS256"`,
`gv-ver = "GV-JWT-V1"`, and `kid` equal to the key id supplied at
construction, and no other header fields. -/
theorem generate_jwt_header_fields (dev kid : String) (key : RsaPrivateKey)
    (hashFn : HashFn) (current_time expires_in : ℤ) :
    ∃ tok,
      (GroupVANClient.init dev kid (KeyMaterial.rsaPem key)).generate_jwt hashFn
          current_time expires_in = Except.ok tok ∧
      tok.header = [("typ", Json.str "JWT"), ("alg", Json.str "RS256"),
                    ("gv-ver", Json.str "GV-JWT-V1"), ("kid", Json.str kid)] :=
  ⟨_, rfl, rfl⟩

/-- C4: for every valid (developer id, key id, private key) and every call,
the token payload contains exactly the five claims `aud`, `iss`, `kid`,
`exp`, `iat`, in this order, with `aud = "groupvan"`, `iss` the developer id
and `kid` the key id passed at construction, and no other claim. -/
theorem generate_jwt_payload_claims (dev kid : String) (key : RsaPrivateKey)
    (hashFn : HashFn) (current_time expires_in : ℤ) :
    ∃ tok,
      (GroupVANClient.init dev kid (KeyMaterial.rsaPem key)).generate_jwt hashFn
          current_time expires_in = Except.ok tok ∧
      tok.payload = [("aud", Json.str "groupvan"), ("iss", Json.str dev),
                     ("kid", Json.str kid),
                     ("exp", Json.int (current_time + expires_in)),
                     ("iat", Json.int current_time)] :=
  ⟨_, rfl, rfl⟩

/-- C9: when the key material supplied at construction is malformed (does
not parse as an RSA private key), `generate_jwt` signals an error within the
call and produces no token. -/
theorem generate_jwt_malformed_key_error (dev kid text : String) (hashFn : HashFn)
    (current_time expires_in : ℤ) :
    ∃ msg,
      (GroupVANClient.init dev kid (KeyMaterial.malformed text)).generate_jwt hashFn
          current_time expires_in = Except.error msg :=
  ⟨_, rfl⟩

/-- C5: every call to `make_authenticated_request` issues exactly one HTTP
request, whose URL is the fixed base URL concatenated with the endpoint,
whose headers are `Authorization: Bearer <freshly minted token with default
lifetime 300>` and `Content-Type: application/json`, and whose response is
returned to the caller unmodified. -/
theorem make_authenticated_request_shape (dev kid : String) (key : RsaPrivateKey)
    (hashFn : HashFn) (serialize : Jwt → String) (current_time : ℤ)
    (transport : HttpRequest → HttpResponse) (method endpoint : String)
    (data : Option Json) (params : Option (List (String × Json))) :
    ∃ tok req,
      (GroupVANClient.init dev kid (KeyMaterial.rsaPem key)).generate_jwt hashFn
          current_time 300 = Except.ok tok ∧
      (GroupVANClient.init dev kid (KeyMaterial.rsaPem key)).make_authenticated_request
          hashFn serialize current_time transport method endpoint data params
        = ([req], Except.ok (transport req)) ∧
      req.method = method ∧
      req.url = "https://api.groupvan.com/v3" ++ endpoint ∧
      req.headers = [("Authorization", "Bearer " ++ serialize tok),
                     ("Content-Type", "application/json")] ∧
      req.data = data ∧ req.params = params :=
  ⟨_, _, rfl, rfl, rfl, rfl, rfl, rfl, rfl⟩

/-- C6: `list_catalogs` sends its `limit` and `offset` exactly as supplied
as the query parameters of the single issued GET request, and on a 200
response returns the response body parsed as JSON, unchanged. -/
theorem list_catalogs_params_and_body (dev kid : String) (key : RsaPrivateKey)
    (hashFn : HashFn) (serialize : Jwt → String) (current_time : ℤ)
    (resp : HttpResponse) (limit offset : ℤ) (h200 : resp.status_code = 200) :
    ∃ req,
      (GroupVANClient.init dev kid (KeyMaterial.rsaPem key)).list_catalogs hashFn serialize
          current_time (fun _ => resp) limit offset = ([req], Except.ok resp.json) ∧
      req.params = some [("limit", Json.int limit), ("offset", Json.int offset)] ∧
      req.method = "GET" ∧
      req.url = "https://api.groupvan.com/v3/catalogs" := by
  obtain ⟨sc, tx, bj⟩ := resp
  change sc = 200 at h200
  subst h200
  exact ⟨_, rfl, rfl, rfl, rfl⟩

/-- Witness for C6: limit 10, offset 0 against a 200 response whose body has
an items sequence and a total count, as in the repository's test. -/
theorem list_catalogs_params_and_body_witness :
    ∃ req,
      (GroupVANClient.init "test_dev_123" "test_key_456"
          (KeyMaterial.rsaPem ⟨33, 7⟩)).list_catalogs (fun _ _ => 2) (fun _ => "tok") 0
          (fun _ => ⟨200, "",
            Json.obj [("items", Json.arr [Json.obj [("id", Json.str "catalog_1")],
                                          Json.obj [("id", Json.str "catalog_2")]]),
                      ("total", Json.int 2)]⟩) 10 0
        = ([req], Except.ok
            (Json.obj [("items", Json.arr [Json.obj [("id", Json.str "catalog_1")],
                                           Json.obj [("id", Json.str "catalog_2")]]),
                       ("total", Json.int 2)])) ∧
      req.params = some [("limit", Json.int 10), ("offset", Json.int 0)] ∧
      req.method = "GET" ∧
      req.url = "https://api.groupvan.com/v3/catalogs" :=
  list_catalogs_params_and_body "test_dev_123" "test_key_456" ⟨33, 7⟩ (fun _ _ => 2)
    (fun _ => "tok") 0
    ⟨200, "", Json.obj [("items", Json.arr [Json.obj [("id", Json.str "catalog_1")],
                                            Json.obj [("id", Json.str "catalog_2")]]),
                        ("total", Json.int 2)]⟩ 10 0 rfl

/-- C3 counterexample: a 201 response (a 2xx status) makes `get_catalog`
raise rather than return the parsed body — the code tests `status == 200`,
not "2xx". -/
theorem get_catalog_201_raises :
    ((GroupVANClient.init "dev_abc123" "key_xyz789"
        (KeyMaterial.rsaPem ⟨33, 7⟩)).get_catalog (fun _ _ => 2) (fun _ => "tok") 0
        (fun _ => ⟨201, "Created", Json.obj []⟩) "catalog_123").2
      = Except.error "Failed to get catalog: 201 - Created" :=
  rfl

/-- C3 (amended): for every HTTP response, `get_catalog` and `list_catalogs`
raise an explicit error carrying the status code and the response body text
if and only if the response status is not exactly 200; every 200 response is
returned as its body parsed as JSON, unchanged. -/
theorem catalog_ops_status_dispatch (dev kid : String) (key : RsaPrivateKey)
    (hashFn : HashFn) (serialize : Jwt → String) (current_time : ℤ)
    (resp : HttpResponse) (catalog_id : String) (limit offset : ℤ) :
    (resp.status_code = 200 →
      ((GroupVANClient.init dev kid (KeyMaterial.rsaPem key)).get_catalog hashFn serialize
          current_time (fun _ => resp) catalog_id).2 = Except.ok resp.json ∧
      ((GroupVANClient.init dev kid (KeyMaterial.rsaPem key)).list_catalogs hashFn serialize
          current_time (fun _ => resp) limit offset).2 = Except.ok resp.json) ∧
    (resp.status_code ≠ 200 →
      ((GroupVANClient.init dev kid (KeyMaterial.rsaPem key)).get_catalog hashFn serialize
          current_time (fun _ => resp) catalog_id).2
        = Except.error ("Failed to get catalog: " ++ toString resp.status_code
            ++ " - " ++ resp.text) ∧
      ((GroupVANClient.init dev kid (KeyMaterial.rsaPem key)).list_catalogs hashFn serialize
          current_time (fun _ => resp) limit offset).2
        = Except.error ("Failed to list catalogs: " ++ toString resp.status_code
            ++ " - " ++ resp.text)) := by
  obtain ⟨sc, tx, bj⟩ := resp
  constructor
  · intro h200
    change sc = 200 at h200
    subst h200
    exact ⟨rfl, rfl⟩
  · intro hnot
    change sc ≠ 200 at hnot
    constructor
    · dsimp only [GroupVANClient.get_catalog, GroupVANClient.make_authenticated_request,
        GroupVANClient.generate_jwt, jwtEncode, parsePrivateKey, GroupVANClient.init]
      rw [if_neg hnot]
    · dsimp only [GroupVANClient.list_catalogs, GroupVANClient.make_authenticated_request,
        GroupVANClient.generate_jwt, jwtEncode, parsePrivateKey, GroupVANClient.init]
      rw [if_neg hnot]

/-- Witness for C3: the 200 branch returns the parsed test body and the 404
branch raises the message built from status and body text. -/
theorem catalog_ops_status_dispatch_witness :
    ((GroupVANClient.init "test_dev_123" "test_key_456"
        (KeyMaterial.rsaPem ⟨33, 7⟩)).get_catalog (fun _ _ => 2) (fun _ => "tok") 0
        (fun _ => ⟨200, "", Json.obj [("id", Json.str "catalog_123"),
                                      ("name", Json.str "Test Catalog")]⟩)
        "catalog_123").2
      = Except.ok (Json.obj [("id", Json.str "catalog_123"),
                             ("name", Json.str "Test Catalog")]) ∧
    ((GroupVANClient.init "test_dev_123" "test_key_456"
        (KeyMaterial.rsaPem ⟨33, 7⟩)).get_catalog (fun _ _ => 2) (fun _ => "tok") 0
        (fun _ => ⟨404, "Catalog not found", Json.null⟩) "invalid_catalog").2
      = Except.error "Failed to get catalog: 404 - Catalog not found" :=
  ⟨((catalog_ops_status_dispatch "test_dev_123" "test_key_456" ⟨33, 7⟩ (fun _ _ => 2)
      (fun _ => "tok") 0
      ⟨200, "", Json.obj [("id", Json.str "catalog_123"), ("name", Json.str "Test Catalog")]⟩
      "catalog_123" 10 0).1 rfl).1,
   ((catalog_ops_status_dispatch "test_dev_123" "test_key_456" ⟨33, 7⟩ (fun _ _ => 2)
      (fun _ => "tok") 0 ⟨404, "Catalog not found", Json.null⟩
      "invalid_catalog" 10 0).2 (by decide)).1⟩

/-- C7: `get_catalog` against a 404 response with body text
"Catalog not found" raises an error whose message contains both the
substring "404" and the literal text "Failed to get catalog". -/
theorem get_catalog_404_message (dev kid : String) (key : RsaPrivateKey)
    (hashFn : HashFn) (serialize : Jwt → String) (current_time : ℤ)
    (catalog_id : String) (bj : Json) :
    ∃ msg,
      ((GroupVANClient.init dev kid (KeyMaterial.rsaPem key)).get_catalog hashFn serialize
          current_time (fun _ => ⟨404, "Catalog not found", bj⟩) catalog_id).2
        = Except.error msg ∧
      strContainsSub msg "404" ∧
      strContainsSub msg "Failed to get catalog" := by
  refine ⟨"Failed to get catalog: 404 - Catalog not found", ?_,
    ⟨"Failed to get catalog: ", " - Catalog not found", ?_⟩,
    ⟨"", ": 404 - Catalog not found", ?_⟩⟩ <;> rfl

/-- C10: every public operation leaves the client's four stored fields
unchanged — the state after any call (carried explicitly by the `_run`
forms, on the success and the error path alike) is the state set by the
constructor. -/
theorem client_fields_frame (dev kid : String) (km : KeyMaterial) (hashFn : HashFn)
    (serialize : Jwt → String) (current_time expires_in : ℤ)
    (transport : HttpRequest → HttpResponse) (method endpoint catalog_id : String)
    (data : Option Json) (params : Option (List (String × Json))) (limit offset : ℤ) :
    ((GroupVANClient.init dev kid km).generate_jwt_run hashFn current_time expires_in).1
        = GroupVANClient.init dev kid km ∧
    ((GroupVANClient.init dev kid km).make_authenticated_request_run hashFn serialize
        current_time transport method endpoint data params).1
        = GroupVANClient.init dev kid km ∧
    ((GroupVANClient.init dev kid km).get_catalog_run hashFn serialize current_time
        transport catalog_id).1 = GroupVANClient.init dev kid km ∧
    ((GroupVANClient.init dev kid km).list_catalogs_run hashFn serialize current_time
        transport limit offset).1 = GroupVANClient.init dev kid km ∧
    (GroupVANClient.init dev kid km).developer_id = dev ∧
    (GroupVANClient.init dev kid km).key_id = kid ∧
    (GroupVANClient.init dev kid km).private_key_pem = km ∧
    (GroupVANClient.init dev kid km).base_url = "https://api.groupvan.com/v3" :=
  ⟨rfl, rfl, rfl, rfl, rfl, rfl, rfl, rfl⟩

/-- In `ZMod p` for `p` prime, raising to a power of the shape
`k * (p - 1) + 1` is the identity (Fermat's little theorem, zero included). -/
theorem zmod_pow_cycle (p : ℕ) (hp : p.Prime) (k : ℕ) (x : ZMod p) :
    x ^ (k * (p - 1) + 1) = x := by
  haveI : Fact p.Prime := ⟨hp⟩
  by_cases hx : x = 0
  · subst hx
    rw [pow_succ, mul_zero]
  · rw [pow_succ, mul_comm k (p - 1), pow_mul, ZMod.pow_card_sub_one_eq_one hx, one_pow,
      one_mul]

/-- RSA correctness core: with modulus `n = p * q` a product of two distinct
primes and `e * d ≡ 1` modulo `(p - 1) * (q - 1)`, verifying a signature
produced with the private exponent succeeds under the public exponent, for
every hashed representative `h`. -/
theorem rsassa_sign_verify (p q n e d h : ℕ) (hp : p.Prime) (hq : q.Prime)
    (hne : p ≠ q) (hn : n = p * q) (hed : e * d ≡ 1 [MOD (p - 1) * (q - 1)]) :
    rsassaVerify n e (rsassaSign n d h) h = true := by
  have hp2 := hp.two_le
  have hq2 := hq.two_le
  have hm2 : 2 ≤ (p - 1) * (q - 1) := by
    have h3 : 3 ≤ p ∨ 3 ≤ q := by omega
    rcases h3 with h3 | h3
    · have hbound : 2 * 1 ≤ (p - 1) * (q - 1) := Nat.mul_le_mul (by omega) (by omega)
      omega
    · have hbound : 1 * 2 ≤ (p - 1) * (q - 1) := Nat.mul_le_mul (by omega) (by omega)
      omega
  have hmod1 : e * d % ((p - 1) * (q - 1)) = 1 := by
    have hh : e * d % ((p - 1) * (q - 1)) = 1 % ((p - 1) * (q - 1)) := hed
    rwa [Nat.mod_eq_of_lt (show 1 < (p - 1) * (q - 1) by omega)] at hh
  obtain ⟨k, hk⟩ : ∃ k, e * d = k * ((p - 1) * (q - 1)) + 1 := by
    refine ⟨e * d / ((p - 1) * (q - 1)), ?_⟩
    conv_lhs => rw [← Nat.div_add_mod (e * d) ((p - 1) * (q - 1))]
    rw [hmod1, Nat.mul_comm]
  have hmp : h ^ (e * d) ≡ h [MOD p] := by
    have hz : ((h : ZMod p)) ^ (e * d) = (h : ZMod p) := by
      rw [hk, show k * ((p - 1) * (q - 1)) + 1 = k * (q - 1) * (p - 1) + 1 by ring]
      exact zmod_pow_cycle p hp (k * (q - 1)) (h : ZMod p)
    have hcast : ((h ^ (e * d) : ℕ) : ZMod p) = ((h : ℕ) : ZMod p) := by
      push_cast
      exact hz
    exact (ZMod.natCast_eq_natCast_iff _ _ _).mp hcast
  have hmq : h ^ (e * d) ≡ h [MOD q] := by
    have hz : ((h : ZMod q)) ^ (e * d) = (h : ZMod q) := by
      rw [hk, show k * ((p - 1) * (q - 1)) + 1 = k * (p - 1) * (q - 1) + 1 by ring]
      exact zmod_pow_cycle q hq (k * (p - 1)) (h : ZMod q)
    have hcast : ((h ^ (e * d) : ℕ) : ZMod q) = ((h : ℕ) : ZMod q) := by
      push_cast
      exact hz
    exact (ZMod.natCast_eq_natCast_iff _ _ _).mp hcast
  have hcop : Nat.Coprime p q := (Nat.coprime_primes hp hq).mpr hne
  have hmn : h ^ (e * d) % n = h % n := by
    have hboth := (Nat.modEq_and_modEq_iff_modEq_mul hcop).mp ⟨hmp, hmq⟩
    rw [hn]
    exact hboth
  show ((h ^ d % n) ^ e % n == h % n) = true
  rw [← Nat.pow_mod, ← pow_mul, mul_comm d e]
  exact beq_iff_eq.mpr hmn

/-- The delegated decoder yields the signed claims whenever the RSASSA check
passes. -/
theorem jwtDecode_ok (hashFn : HashFn) (pub : RsaPublicKey) (tok : Jwt)
    (hv : rsassaVerify pub.n pub.e tok.signature (hashFn tok.header tok.payload) = true) :
    jwtDecode hashFn pub tok = some tok.payload := by
  unfold jwtDecode
  rw [if_pos hv]

/-- C8 (amended): a token produced by `generate_jwt` under the private key
(n, d) of a valid RSA key pair verifies under the corresponding public key
(n, e) and yields the signed claims, for every hash encoding of the signing
input; verification under an unrelated public key can fail — it does at the
concrete unrelated key (35, 5) — but is not guaranteed to fail for every
public key distinct from the corresponding one. -/
theorem generate_jwt_verify_roundtrip (p q n e d : ℕ) (hp : p.Prime) (hq : q.Prime)
    (hne : p ≠ q) (hn : n = p * q) (hed : e * d ≡ 1 [MOD (p - 1) * (q - 1)])
    (dev kid : String) (hashFn : HashFn) (current_time expires_in : ℤ) :
    (∃ tok,
      (GroupVANClient.init dev kid (KeyMaterial.rsaPem ⟨n, d⟩)).generate_jwt hashFn
          current_time expires_in = Except.ok tok ∧
      jwtDecode hashFn ⟨n, e⟩ tok = some tok.payload) ∧
    (∃ tok2,
      (GroupVANClient.init "dev_abc123" "key_xyz789"
          (KeyMaterial.rsaPem ⟨33, 7⟩)).generate_jwt (fun _ _ => 2) 0 300
        = Except.ok tok2 ∧
      jwtDecode (fun _ _ => 2) ⟨35, 5⟩ tok2 = none) := by
  constructor
  · refine ⟨⟨jwtHeaderFor kid, jwtPayloadFor dev kid current_time expires_in,
      rsassaSign n d (hashFn (jwtHeaderFor kid)
        (jwtPayloadFor dev kid current_time expires_in))⟩, rfl, ?_⟩
    exact jwtDecode_ok hashFn ⟨n, e⟩ _
      (rsassa_sign_verify p q n e d _ hp hq hne hn hed)
  · exact ⟨_, rfl, rfl⟩

/-- Witness for C8: the valid key pair n = 33 = 3 * 11, e = 3, d = 7
(3 * 7 = 21 ≡ 1 mod 20), with a concrete hash encoding. -/
theorem generate_jwt_verify_roundtrip_witness :
    (∃ tok,
      (GroupVANClient.init "dev_abc123" "key_xyz789"
          (KeyMaterial.rsaPem ⟨33, 7⟩)).generate_jwt (fun _ _ => 2) 0 300
        = Except.ok tok ∧
      jwtDecode (fun _ _ => 2) ⟨33, 3⟩ tok = some tok.payload) ∧
    (∃ tok2,
      (GroupVANClient.init "dev_abc123" "key_xyz789"
          (KeyMaterial.rsaPem ⟨33, 7⟩)).generate_jwt (fun _ _ => 2) 0 300
        = Except.ok tok2 ∧
      jwtDecode (fun _ _ => 2) ⟨35, 5⟩ tok2 = none) :=
  generate_jwt_verify_roundtrip 3 11 33 3 7 (by norm_num) (by norm_num) (by decide)
    rfl rfl "dev_abc123" "key_xyz789" (fun _ _ => 2) 0 300

/-- C8 counterexample: for the key pair with modulus 33 and exponents
(e, d) = (3, 7), the public key (33, 23) — distinct from the corresponding
public key (33, 3) — also verifies the generated token, so verification does
not fail under every unrelated public key. -/
theorem unrelated_key_can_verify :
    ∃ tok,
      (GroupVANClient.init "dev_abc123" "key_xyz789"
          (KeyMaterial.rsaPem ⟨33, 7⟩)).generate_jwt (fun _ _ => 2) 0 300
        = Except.ok tok ∧
      jwtDecode (fun _ _ => 2) ⟨33, 3⟩ tok = some tok.payload ∧
      jwtDecode (fun _ _ => 2) ⟨33, 23⟩ tok = some tok.payload :=
  ⟨_, rfl, rfl, rfl⟩
